import Mathlib

/-!
Verification of the `llm_client` core of Handy-cloud-models: a shallow
embedding in Lean 4 of `src/src-tauri/src/llm_client.rs` (header building,
chat completion, model listing, cloud transcription), together with proofs
of the specified properties.

Modelling conventions:
* JSON values (`serde_json::Value`) are the inductive `Json` below; an
  object is an association list in document order and `get` returns the
  first binding (the functions under verification never build objects, and
  the claims never involve duplicate keys).
* An HTTP response is a triple `(status, body, bodyJson)`: the numeric
  status, the body read as text (`none` = unreadable), and the result of
  parsing that same body text as JSON (`none` = not valid JSON).  The
  network itself is out of scope: each operation is a pure function of its
  inputs and of the one response the remote returns.
* `f32` sample values are `Option ℚ`: `none` models NaN, `some q` a finite
  value.  The product `s * 32767.0` is modelled as the exact rational
  product (for the dyadic inputs appearing in the claims the `f32` product
  is exact).  Infinities are not modelled separately; they behave like
  out-of-range finite values under the saturating cast.
* Machine integers are `Nat`/`Int` with explicit `% 2^w` where a 32-bit
  field is written into the WAV container.
-/

/-- JSON value, mirroring `serde_json::Value`.  Numbers are modelled as
`Int` (no claim inspects a JSON number's value). -/
inductive Json where
  | null : Json
  | bool : Bool → Json
  | num : Int → Json
  | str : String → Json
  | arr : List Json → Json
  | obj : List (String × Json) → Json
deriving Inhabited

/-- `Value::get(key)`: field lookup on an object, `None` on any other
variant (mirrors `serde_json`'s string indexing). -/
def Json.get : Json → String → Option Json
  | .obj fields, key => fields.lookup key
  | _, _ => none

/-- `Value::as_array`. -/
def Json.asArray : Json → Option (List Json)
  | .arr items => some items
  | _ => none

/-- `Value::as_str`. -/
def Json.asStr : Json → Option String
  | .str s => some s
  | _ => none

/-- `settings::PostProcessProvider`, as consumed by `llm_client` (only the
`id` and `base_url` fields are read there). -/
structure PostProcessProvider where
  id : String
  base_url : String
deriving DecidableEq

/-- A header map is modelled as a list of (name, value) pairs with
lower-case names, in insertion order.  `HeaderMap::insert` replaces an
existing entry; every insertion in `build_headers` uses a fresh name, so
plain append is an exact model of the maps it builds. -/
abbrev HeaderList := List (String × String)

/-- Byte-validity check of `http::HeaderValue::from_str`: every byte must
be horizontal tab or in `[0x20, 0xFF] \ {0x7F}`.  Characters `< 0x80`
encode to themselves in UTF-8 and bytes of a multi-byte encoding are all
`≥ 0x80`, so the per-character check below is equivalent to the per-byte
one. -/
def isValidHeaderValue (s : String) : Bool :=
  s.data.all fun c => c.toNat = 9 || (32 ≤ c.toNat && c.toNat ≠ 127)

/-- `HeaderValue::from_str`. -/
def headerValueFromStr (s : String) : Except String String :=
  if isValidHeaderValue s then .ok s else .error "failed to parse header value"

/-- `build_headers` (llm_client.rs:36-70): common headers always; then, for
a non-empty key, exactly one auth scheme chosen by `provider.id`. -/
def build_headers (provider : PostProcessProvider) (api_key : String) :
    Except String HeaderList :=
  let headers : HeaderList :=
    [("content-type", "application/json"),
     ("referer", "https://github.com/cjpais/Handy"),
     ("user-agent", "Handy/1.0 (+https://github.com/cjpais/Handy)"),
     ("x-title", "Handy")]
  if api_key ≠ "" then
    if provider.id = "anthropic" then
      match headerValueFromStr api_key with
      | .error e => .error ("Invalid API key header value: " ++ e)
      | .ok v =>
        .ok (headers ++ [("x-api-key", v), ("anthropic-version", "2023-06-01")])
    else
      match headerValueFromStr ("Bearer " ++ api_key) with
      | .error e => .error ("Invalid authorization header value: " ++ e)
      | .ok v => .ok (headers ++ [("authorization", v)])
  else
    .ok headers

/-- `str.trim_end_matches('/')`: remove every trailing `'/'`. -/
def trimEndMatchesSlash (s : String) : String :=
  ⟨(s.data.reverse.dropWhile fun c => c == '/').reverse⟩

/-- Request URL of `send_chat_completion` (llm_client.rs:90-91). -/
def chatCompletionsUrl (base_url : String) : String :=
  trimEndMatchesSlash base_url ++ "/chat/completions"

/-- Request URL of `fetch_models` (llm_client.rs:141-142). -/
def modelsUrl (base_url : String) : String :=
  trimEndMatchesSlash base_url ++ "/models"

/-- Request URL of `transcribe_cloud` (llm_client.rs:206). -/
def transcriptionsUrl (base_url : String) : String :=
  trimEndMatchesSlash base_url ++ "/audio/transcriptions"

/-- `reqwest::StatusCode::is_success`: `2xx`. -/
def isSuccessStatus (status : Nat) : Bool :=
  200 ≤ status && status < 300

/-- The one HTTP response an operation receives: numeric status, the body
read as text (`none` = unreadable), and the JSON parse of that same body
text (`none` = not valid JSON or unreadable body). -/
structure HttpResponse where
  status : Nat
  body : Option String
  bodyJson : Option Json

/-- `ChatMessageResponse { content: Option<String> }`. -/
structure ChatMessageResponse where
  content : Option String
deriving DecidableEq

/-- `ChatChoice { message: ChatMessageResponse }`. -/
structure ChatChoice where
  message : ChatMessageResponse
deriving DecidableEq

/-- `ChatCompletionResponse { choices: Vec<ChatChoice> }`. -/
structure ChatCompletionResponse where
  choices : List ChatChoice
deriving DecidableEq

/-- serde deserializer of `ChatMessageResponse`: an object whose optional
`content` field is a string or null (a missing or null field is `none`);
unknown fields are ignored. -/
def deserChatMessageResponse : Json → Except String ChatMessageResponse
  | .obj fields =>
    match fields.lookup "content" with
    | none => .ok ⟨none⟩
    | some .null => .ok ⟨none⟩
    | some (.str s) => .ok ⟨some s⟩
    | some _ => .error "invalid type for field content"
  | _ => .error "invalid type: expected struct ChatMessageResponse"

/-- serde deserializer of `ChatChoice`: requires a `message` field. -/
def deserChatChoice : Json → Except String ChatChoice
  | .obj fields =>
    match fields.lookup "message" with
    | some m => (deserChatMessageResponse m).map (⟨·⟩)
    | none => .error "missing field message"
  | _ => .error "invalid type: expected struct ChatChoice"

/-- serde deserializer of `ChatCompletionResponse`: requires a `choices`
array whose every element deserializes as a `ChatChoice`. -/
def deserChatCompletionResponse : Json → Except String ChatCompletionResponse
  | .obj fields =>
    match fields.lookup "choices" with
    | some (.arr items) => (items.mapM deserChatChoice).map (⟨·⟩)
    | some _ => .error "invalid type for field choices"
    | none => .error "missing field choices"
  | _ => .error "invalid type: expected struct ChatCompletionResponse"

/-- `send_chat_completion` (llm_client.rs:84-133) as a function of the
response the remote returns.  The transport itself (and transport-level
failure, which precedes any response) is outside the model. -/
def send_chat_completion (provider : PostProcessProvider) (api_key : String)
    (model prompt : String) (resp : HttpResponse) : Except String (Option String) :=
  let _url := chatCompletionsUrl provider.base_url
  match build_headers provider api_key with
  | .error e => .error e
  | .ok _ =>
    if !isSuccessStatus resp.status then
      .error ("API request failed with status " ++ toString resp.status ++ ": " ++
        resp.body.getD "Failed to read error response")
    else
      match resp.bodyJson with
      | none => .error "Failed to parse API response: invalid JSON"
      | some j =>
        match deserChatCompletionResponse j with
        | .error e => .error ("Failed to parse API response: " ++ e)
        | .ok completion =>
          .ok (completion.choices.head?.bind fun choice => choice.message.content)

/-- One loop iteration of `fetch_models`' OpenAI-shape handling: the entry
contributes its `id` field if that is a string, else its `name` field if
that is a string, else nothing (llm_client.rs:175-181). -/
def modelEntryId (entry : Json) : Option String :=
  match (entry.get "id").bind Json.asStr with
  | some id => some id
  | none => (entry.get "name").bind Json.asStr

/-- The response normalization of `fetch_models` (llm_client.rs:171-192):
first the OpenAI shape `{ data: [...] }`, else a bare string array, else
the empty list. -/
def normalizeModels (parsed : Json) : List String :=
  match (parsed.get "data").bind Json.asArray with
  | some data => data.filterMap modelEntryId
  | none =>
    match parsed.asArray with
    | some array => array.filterMap Json.asStr
    | none => []

/-- Modelled from the spec's words (Section 4.4), per entry: "take field
`id` if it is a string, else fall back to field `name` if that is a
string; entries matching neither are silently skipped". -/
def specModelEntryId (e : Json) : Option String :=
  match e.get "id" with
  | some (.str s) => some s
  | _ =>
    match e.get "name" with
    | some (.str s) => some s
    | _ => none

/-- Modelled from the spec's words: a bare list element is taken directly
when it is a string. -/
def specJsonString : Json → Option String
  | .str s => some s
  | _ => none

/-- Modelled from the spec's words (Section 4.4), for comparison with
`normalizeModels`: two shapes tried in order — an object whose `data`
field holds a list of entries, each contributing `id` if a string else
`name` if a string, entries matching neither silently skipped; else a bare
list whose string elements are taken directly; else the empty sequence. -/
def specNormalizeModels : Json → List String
  | .obj fields =>
    match fields.lookup "data" with
    | some (.arr entries) => entries.filterMap specModelEntryId
    | _ => []
  | .arr elems => elems.filterMap specJsonString
  | _ => []

/-- `fetch_models` (llm_client.rs:137-193) as a function of the response
the remote returns. -/
def fetch_models (provider : PostProcessProvider) (api_key : String)
    (resp : HttpResponse) : Except String (List String) :=
  let _url := modelsUrl provider.base_url
  match build_headers provider api_key with
  | .error e => .error e
  | .ok _ =>
    if !isSuccessStatus resp.status then
      .error ("Model list request failed (" ++ toString resp.status ++ "): " ++
        resp.body.getD "Unknown error")
    else
      match resp.bodyJson with
      | none => .error "Failed to parse response: invalid JSON"
      | some parsed => .ok (normalizeModels parsed)

/-- `p` is a prefix of the first list. -/
def startsWithL : List Char → List Char → Bool
  | _, [] => true
  | [], _ :: _ => false
  | a :: as, b :: bs => a == b && startsWithL as bs

/-- The second list occurs contiguously inside the first. -/
def occursInL : List Char → List Char → Bool
  | [], needle => needle.isEmpty
  | hay@(_ :: t), needle => startsWithL hay needle || occursInL t needle

/-- Substring occurrence on strings (used to state "the error message
contains ..."). -/
def occursIn (hay needle : String) : Bool :=
  occursInL hay.data needle.data

/-- Truncation of a rational toward zero, the rounding a Rust numeric
cast applies. -/
def truncQ (q : ℚ) : Int :=
  if 0 ≤ q then ⌊q⌋ else ⌈q⌉

/-- The sample conversion of llm_client.rs:222,
`(sample * i16::MAX as f32) as i16`, under Rust saturating `as`-cast
semantics: the product with 32767 is truncated toward zero and saturated
into the `i16` range; a NaN sample casts to 0.  An `f32` sample is
`none` for NaN and `some q` for a finite value, and the `f32` product is
modelled as the exact rational product. -/
def sampleToI16 : Option ℚ → Int
  | none => 0
  | some sample =>
    if truncQ (sample * 32767) < -32768 then -32768
    else if 32767 < truncQ (sample * 32767) then 32767
    else truncQ (sample * 32767)

/-- Two little-endian bytes of a 16-bit field. -/
def u16le (n : Nat) : List Nat :=
  [n % 256, n / 256 % 256]

/-- Four little-endian bytes of a 32-bit field (written `mod 2^32`, as a
32-bit size field stores it). -/
def u32le (n : Nat) : List Nat :=
  [n % 256, n / 256 % 256, n / 65536 % 256, n / 16777216 % 256]

/-- Two little-endian bytes of an `i16` sample, two's complement. -/
def i16le (z : Int) : List Nat :=
  u16le (z % 65536).toNat

/-- The bytes of an ASCII chunk tag. -/
def asciiBytes (s : String) : List Nat :=
  s.data.map Char.toNat

/-- Modelled from the spec: the header `hound::WavWriter` emits for
`WavSpec { channels: 1, sample_rate: 16000, bits_per_sample: 16, Int }`
once finalized — the `hound` crate is a dependency, not part of this
repository's sources, so the container is taken from the spec's
"complete, self-describing byte buffer (valid headers, correct declared
lengths)" for the canonical 44-byte PCM layout: RIFF size `36 + data
size`, a 16-byte `fmt ` chunk (PCM tag 1, 1 channel, 16000 Hz, byte rate
32000, block align 2, 16 bits), and the `data` chunk size. -/
def wavHeader (numSamples : Nat) : List Nat :=
  asciiBytes "RIFF" ++ u32le (36 + 2 * numSamples) ++ asciiBytes "WAVE" ++
  asciiBytes "fmt " ++ u32le 16 ++ u16le 1 ++ u16le 1 ++ u32le 16000 ++
  u32le 32000 ++ u16le 2 ++ u16le 16 ++
  asciiBytes "data" ++ u32le (2 * numSamples)

/-- The WAV byte buffer built in `transcribe_cloud` (llm_client.rs:210-229):
header then the 16-bit little-endian samples. -/
def wavEncode (samples : List Int) : List Nat :=
  wavHeader samples.length ++ (samples.map i16le).flatten

/-- `hound::WavSpec`, the format triple a decoder recovers. -/
structure WavSpecL where
  channels : Nat
  sample_rate : Nat
  bits_per_sample : Nat
deriving DecidableEq

/-- Consume an expected byte sequence from the front. -/
def dropBytes : List Nat → List Nat → Option (List Nat)
  | [], rest => some rest
  | e :: es, b :: rest => if b = e then dropBytes es rest else none
  | _ :: _, [] => none

def parseU16 : List Nat → Option (Nat × List Nat)
  | b0 :: b1 :: rest => some (b0 + 256 * b1, rest)
  | _ => none

def parseU32 : List Nat → Option (Nat × List Nat)
  | b0 :: b1 :: b2 :: b3 :: rest =>
    some (b0 + 256 * b1 + 65536 * b2 + 16777216 * b3, rest)
  | _ => none

/-- Reinterpret a 16-bit pattern as a two's-complement `i16`. -/
def i16OfBits (n : Nat) : Int :=
  if n < 32768 then (n : Int) else (n : Int) - 65536

/-- Read exactly `count` 16-bit little-endian samples, requiring the byte
stream to end right after them. -/
def parseSamples : Nat → List Nat → Option (List Int)
  | 0, [] => some []
  | 0, _ :: _ => none
  | count + 1, bytes => do
    let (v, rest) ← parseU16 bytes
    let tail ← parseSamples count rest
    pure (i16OfBits v :: tail)

/-- Require an ASCII chunk tag, then continue on the remaining bytes. -/
def expectTag {A : Type} (tag : String) (k : List Nat → Option A)
    (bytes : List Nat) : Option A :=
  match dropBytes (asciiBytes tag) bytes with
  | some rest => k rest
  | none => none

/-- Read a 32-bit little-endian field, then continue. -/
def withU32 {A : Type} (k : Nat → List Nat → Option A)
    (bytes : List Nat) : Option A :=
  match parseU32 bytes with
  | some (v, rest) => k v rest
  | none => none

/-- Read a 16-bit little-endian field, then continue. -/
def withU16 {A : Type} (k : Nat → List Nat → Option A)
    (bytes : List Nat) : Option A :=
  match parseU16 bytes with
  | some (v, rest) => k v rest
  | none => none

/-- WAV decoder for the canonical container: checks the RIFF/WAVE framing,
the PCM `fmt ` chunk, and the declared sizes, and recovers the format
triple and the samples. -/
def wavDecode : List Nat → Option (WavSpecL × List Int) :=
  expectTag "RIFF" <| withU32 fun riffSize =>
  expectTag "WAVE" <| expectTag "fmt " <| withU32 fun fmtSize =>
  withU16 fun fmtTag => withU16 fun channels =>
  withU32 fun sampleRate => withU32 fun byteRate =>
  withU16 fun blockAlign => withU16 fun bits =>
  expectTag "data" <| withU32 fun dataSize => fun r =>
  if fmtSize = 16 ∧ fmtTag = 1 ∧ dataSize % 2 = 0 ∧
      riffSize = 36 + dataSize ∧
      byteRate = sampleRate * channels * (bits / 8) ∧
      blockAlign = channels * (bits / 8) then
    match parseSamples (dataSize / 2) r with
    | some samples => some (⟨channels, sampleRate, bits⟩, samples)
    | none => none
  else
    none

/-- The error-message extraction of `transcribe_cloud`'s non-success path
(llm_client.rs:252-258): `serde_json::from_str(&error_text)` succeeds only
when the body was readable (else `error_text` is the placeholder, which is
not JSON), and the message is `error.message` when that is a string.  The
three fall-through branches of the source collapse to `none`. -/
def transcribeErrMessage (resp : HttpResponse) : Option String :=
  match (if resp.body.isSome then resp.bodyJson else none) with
  | some ej =>
    match ej.get "error" with
    | some err => (err.get "message").bind Json.asStr
    | none => none
  | none => none

/-- serde deserializer of `TranscriptionResponse { text: String }`. -/
def deserTranscriptionResponse : Json → Except String String
  | .obj fields =>
    match fields.lookup "text" with
    | some (.str t) => .ok t
    | some _ => .error "invalid type for field text"
    | none => .error "missing field text"
  | _ => .error "invalid type: expected struct TranscriptionResponse"

/-- The one network call `transcribe_cloud` can perform: the multipart
POST carrying the encoded WAV bytes and the model field. -/
structure UploadCall where
  url : String
  wavBytes : List Nat
  model : String
deriving DecidableEq

/-- `transcribe_cloud` (llm_client.rs:196-274) as a function of the
response, returning alongside the result the list of network calls
performed (so "no network call attempted" is observable; the call carries
the encoded WAV bytes, so what is uploaded is observable too). -/
def transcribe_cloud (api_key base_url model : String)
    (audio_samples : List (Option ℚ)) (resp : HttpResponse) :
    Except String String × List UploadCall :=
  if api_key = "" then
    (.error "OpenAI API key is missing. Please add it in the Advanced settings.", [])
  else
    let url := transcriptionsUrl base_url
    let wav_bytes := wavEncode (audio_samples.map sampleToI16)
    let calls : List UploadCall := [⟨url, wav_bytes, model⟩]
    let result : Except String String :=
      if !isSuccessStatus resp.status then
        match transcribeErrMessage resp with
        | some message => .error ("OpenAI API Error: " ++ message)
        | none =>
          .error ("Cloud transcription failed (" ++ toString resp.status ++ "): " ++
            resp.body.getD "Failed to read error response")
      else
        match resp.bodyJson with
        | none => .error "Failed to parse cloud transcription response: invalid JSON"
        | some j =>
          match deserTranscriptionResponse j with
          | .ok t => .ok t
          | .error e => .error ("Failed to parse cloud transcription response: " ++ e)
    (result, calls)

/-- Claim C1: `build_headers` selects exactly one auth scheme.  With a
non-empty key and `provider.id = "anthropic"` the headers hold `x-api-key`
with the key and `anthropic-version = 2023-06-01` and no `authorization`
entry; with a non-empty key and any other id they hold
`authorization = Bearer <key>` and no `x-api-key` entry; with an empty key
they hold neither, whatever the id. -/
theorem build_headers_one_auth_scheme
    (provider : PostProcessProvider) (api_key : String) (hs : HeaderList)
    (hok : build_headers provider api_key = .ok hs) :
    (api_key ≠ "" → provider.id = "anthropic" →
      ("x-api-key", api_key) ∈ hs ∧ ("anthropic-version", "2023-06-01") ∈ hs ∧
      ∀ v, ("authorization", v) ∉ hs) ∧
    (api_key ≠ "" → provider.id ≠ "anthropic" →
      ("authorization", "Bearer " ++ api_key) ∈ hs ∧
      ∀ v, ("x-api-key", v) ∉ hs) ∧
    (api_key = "" →
      ∀ v, ("x-api-key", v) ∉ hs ∧ ("authorization", v) ∉ hs) := by
  unfold build_headers at hok
  by_cases hk : api_key = ""
  · simp [hk] at hok
    subst hok
    exact ⟨by simp [hk], by simp [hk], by intro _ v; simp⟩
  · by_cases hid : provider.id = "anthropic"
    · simp [hk, hid, headerValueFromStr] at hok
      by_cases hv : isValidHeaderValue api_key
      · simp [hv] at hok
        subst hok
        refine ⟨?_, by simp [hid], by simp [hk]⟩
        intro _ _
        exact ⟨by simp, by simp, by intro v; simp⟩
      · simp [hv] at hok
    · simp [hk, hid, headerValueFromStr] at hok
      by_cases hv : isValidHeaderValue ("Bearer " ++ api_key)
      · simp [hv] at hok
        subst hok
        refine ⟨by simp [hid], ?_, by simp [hk]⟩
        intro _ _
        exact ⟨by simp, by intro v; simp⟩
      · simp [hv] at hok

/-- Witness for C1: evaluating `build_headers` at a concrete provider and
key and discharging the hypotheses of `build_headers_one_auth_scheme`. -/
theorem build_headers_one_auth_scheme_witness :
    ("x-api-key", "sk-1") ∈
        ([("content-type", "application/json"),
          ("referer", "https://github.com/cjpais/Handy"),
          ("user-agent", "Handy/1.0 (+https://github.com/cjpais/Handy)"),
          ("x-title", "Handy"),
          ("x-api-key", "sk-1"), ("anthropic-version", "2023-06-01")] : HeaderList) ∧
      ("anthropic-version", "2023-06-01") ∈
        ([("content-type", "application/json"),
          ("referer", "https://github.com/cjpais/Handy"),
          ("user-agent", "Handy/1.0 (+https://github.com/cjpais/Handy)"),
          ("x-title", "Handy"),
          ("x-api-key", "sk-1"), ("anthropic-version", "2023-06-01")] : HeaderList) ∧
      ∀ v, ("authorization", v) ∉
        ([("content-type", "application/json"),
          ("referer", "https://github.com/cjpais/Handy"),
          ("user-agent", "Handy/1.0 (+https://github.com/cjpais/Handy)"),
          ("x-title", "Handy"),
          ("x-api-key", "sk-1"), ("anthropic-version", "2023-06-01")] : HeaderList) :=
  (build_headers_one_auth_scheme ⟨"anthropic", "https://api.anthropic.com"⟩ "sk-1"
      _ (by simp [build_headers, headerValueFromStr]; rfl)).1 (by decide) rfl

theorem data_append_eq (s t : String) : (s ++ t).data = s.data ++ t.data := by
  obtain ⟨l⟩ := s
  obtain ⟨m⟩ := t
  rfl

theorem startsWithL_nil_needle (l : List Char) : startsWithL l [] = true := by
  cases l <;> rfl

theorem startsWithL_append (p rest : List Char) :
    startsWithL (p ++ rest) p = true := by
  induction p with
  | nil => exact startsWithL_nil_needle rest
  | cons a t ih => simp [startsWithL, ih]

theorem occursInL_self_append (mid post : List Char) :
    occursInL (mid ++ post) mid = true := by
  cases mid with
  | nil =>
    cases post with
    | nil => rfl
    | cons c t => simp [occursInL, startsWithL_nil_needle]
  | cons c t =>
    have h := startsWithL_append (c :: t) post
    simp only [List.cons_append] at h
    simp [occursInL, h]

theorem occursInL_mid (pre mid post : List Char) :
    occursInL (pre ++ (mid ++ post)) mid = true := by
  induction pre with
  | nil => simpa using occursInL_self_append mid post
  | cons a t ih => simp [occursInL, ih]

theorem occursIn_sandwich (a b c : String) : occursIn (a ++ b ++ c) b = true := by
  simp only [occursIn, data_append_eq, List.append_assoc]
  exact occursInL_mid a.data b.data c.data

theorem occursIn_of_suffix (a b : String) : occursIn (a ++ b) b = true := by
  have h := occursInL_mid a.data b.data []
  simpa [occursIn, data_append_eq] using h

theorem trimEndMatchesSlash_append_slash (b : String) :
    trimEndMatchesSlash (b ++ "/") = trimEndMatchesSlash b := by
  obtain ⟨l⟩ := b
  show trimEndMatchesSlash ⟨l ++ ['/']⟩ = trimEndMatchesSlash ⟨l⟩
  simp [trimEndMatchesSlash]

/-- Claim C8: every operation normalizes the base URL by stripping the
trailing slash before path concatenation, so base URLs differing only in a
trailing slash give the same request URL; in particular the spec's example
for the chat-completion endpoint. -/
theorem request_urls_ignore_trailing_slash (b : String) :
    chatCompletionsUrl (b ++ "/") = chatCompletionsUrl b ∧
    modelsUrl (b ++ "/") = modelsUrl b ∧
    transcriptionsUrl (b ++ "/") = transcriptionsUrl b ∧
    chatCompletionsUrl "https://api.example.com/" =
      "https://api.example.com/chat/completions" ∧
    chatCompletionsUrl "https://api.example.com" =
      "https://api.example.com/chat/completions" := by
  refine ⟨?_, ?_, ?_, by decide, by decide⟩ <;>
    simp [chatCompletionsUrl, modelsUrl, transcriptionsUrl,
      trimEndMatchesSlash_append_slash]

theorem modelEntryId_eq_spec (e : Json) : modelEntryId e = specModelEntryId e := by
  unfold modelEntryId specModelEntryId
  cases hid : e.get "id" with
  | none =>
    cases hname : e.get "name" with
    | none => simp [Option.bind]
    | some v => cases v <;> simp [Option.bind, Json.asStr]
  | some v =>
    cases v <;>
      · cases hname : e.get "name" with
        | none => simp [Option.bind, Json.asStr]
        | some w => cases w <;> simp [Option.bind, Json.asStr]

theorem asStr_eq_spec (e : Json) : Json.asStr e = specJsonString e := by
  cases e <;> rfl

theorem normalizeModels_eq_spec (j : Json) :
    normalizeModels j = specNormalizeModels j := by
  cases j with
  | obj fields =>
    unfold normalizeModels specNormalizeModels
    cases hd : fields.lookup "data" with
    | none => simp [Json.get, hd, Option.bind, Json.asArray]
    | some v =>
      cases v with
      | arr entries =>
        simp only [Json.get, hd, Option.bind, Json.asArray]
        exact List.filterMap_congr fun e _ => modelEntryId_eq_spec e
      | null => simp [Json.get, hd, Option.bind, Json.asArray]
      | bool b => simp [Json.get, hd, Option.bind, Json.asArray]
      | num n => simp [Json.get, hd, Option.bind, Json.asArray]
      | str s => simp [Json.get, hd, Option.bind, Json.asArray]
      | obj o => simp [Json.get, hd, Option.bind, Json.asArray]
  | arr elems =>
    unfold normalizeModels specNormalizeModels
    simp only [Json.get, Option.bind, Json.asArray]
    exact List.filterMap_congr fun e _ => asStr_eq_spec e
  | null => rfl
  | bool b => rfl
  | num n => rfl
  | str s => rfl

/-- Claim C2: `fetch_models` normalizes a fetched JSON value exactly as the
spec's two ordered shapes describe (object-with-`data`-array via `id` else
`name`, else bare string array, else the empty list rather than an error),
preserving order and keeping duplicates; and on a success response the
operation returns that normalization as a success. -/
theorem fetch_models_normalization :
    (∀ j : Json, normalizeModels j = specNormalizeModels j) ∧
    (∀ (provider : PostProcessProvider) (api_key : String) (resp : HttpResponse)
        (hs : HeaderList) (j : Json),
      build_headers provider api_key = .ok hs →
      isSuccessStatus resp.status = true →
      resp.bodyJson = some j →
      fetch_models provider api_key resp = .ok (specNormalizeModels j)) := by
  refine ⟨normalizeModels_eq_spec, ?_⟩
  intro provider api_key resp hs j hh hst hj
  simp [fetch_models, hh, hst, hj, normalizeModels_eq_spec]

/-- Witness for C2: the spec's own example inputs, evaluated. -/
theorem fetch_models_normalization_witness :
    fetch_models ⟨"openai", "https://api.openai.com/v1"⟩ "k"
        ⟨200, some "irrelevant",
         some (.obj [("data", .arr
           [.obj [("id", .str "a")], .obj [("name", .str "b")],
            .obj [("foo", .str "c")]])])⟩ =
      .ok ["a", "b"] := by
  have h := fetch_models_normalization.2 ⟨"openai", "https://api.openai.com/v1"⟩ "k"
      ⟨200, some "irrelevant",
       some (.obj [("data", .arr
         [.obj [("id", .str "a")], .obj [("name", .str "b")],
          .obj [("foo", .str "c")]])])⟩
      [("content-type", "application/json"),
       ("referer", "https://github.com/cjpais/Handy"),
       ("user-agent", "Handy/1.0 (+https://github.com/cjpais/Handy)"),
       ("x-title", "Handy"), ("authorization", "Bearer k")]
      (.obj [("data", .arr
        [.obj [("id", .str "a")], .obj [("name", .str "b")],
         .obj [("foo", .str "c")]])])
      (by simp [build_headers, headerValueFromStr]; rfl) rfl rfl
  simpa using h

theorem str_append_assoc (a b c : String) : a ++ b ++ c = a ++ (b ++ c) := by
  obtain ⟨x⟩ := a
  obtain ⟨y⟩ := b
  obtain ⟨z⟩ := c
  show String.mk (x ++ y ++ z) = String.mk (x ++ (y ++ z))
  rw [List.append_assoc]

/-- Claim C3: on a success-status response whose body deserializes as
`{ choices: [{ message: { content: string? } }] }`, `send_chat_completion`
returns the first choice's content, and returns `none` as a success (not
an error) when the choices list is empty or the first choice has no
content. -/
theorem send_chat_completion_first_choice
    (provider : PostProcessProvider) (api_key model prompt : String)
    (resp : HttpResponse) (hs : HeaderList) (j : Json)
    (completion : ChatCompletionResponse)
    (hh : build_headers provider api_key = .ok hs)
    (hst : isSuccessStatus resp.status = true)
    (hj : resp.bodyJson = some j)
    (hc : deserChatCompletionResponse j = .ok completion) :
    send_chat_completion provider api_key model prompt resp =
      .ok (completion.choices.head?.bind fun choice => choice.message.content) ∧
    (completion.choices = [] →
      send_chat_completion provider api_key model prompt resp = .ok none) ∧
    (∀ c rest, completion.choices = c :: rest →
      send_chat_completion provider api_key model prompt resp =
        .ok c.message.content) := by
  have hmain : send_chat_completion provider api_key model prompt resp =
      .ok (completion.choices.head?.bind fun choice => choice.message.content) := by
    simp [send_chat_completion, hh, hst, hj, hc]
  refine ⟨hmain, ?_, ?_⟩
  · intro hnil
    rw [hmain, hnil]
    rfl
  · intro c rest hcons
    rw [hmain, hcons]
    rfl

/-- Witness for C3: the spec's example body, evaluated. -/
theorem send_chat_completion_first_choice_witness :
    send_chat_completion ⟨"openai", "https://api.example.com"⟩ "k" "gpt" "p"
        ⟨200, some "body", some (.obj [("choices", .arr
          [.obj [("message", .obj [("content", .str "hi")])]])])⟩ =
      .ok (some "hi") := by
  have h := send_chat_completion_first_choice
      ⟨"openai", "https://api.example.com"⟩ "k" "gpt" "p"
      ⟨200, some "body", some (.obj [("choices", .arr
        [.obj [("message", .obj [("content", .str "hi")])]])])⟩
      [("content-type", "application/json"),
       ("referer", "https://github.com/cjpais/Handy"),
       ("user-agent", "Handy/1.0 (+https://github.com/cjpais/Handy)"),
       ("x-title", "Handy"), ("authorization", "Bearer k")]
      (.obj [("choices", .arr
        [.obj [("message", .obj [("content", .str "hi")])]])])
      ⟨[⟨⟨some "hi"⟩⟩]⟩
      (by simp [build_headers, headerValueFromStr]; rfl) rfl rfl rfl
  simpa using h.1

/-- Claim C6: on a non-success status `send_chat_completion` fails with a
message containing both the status and the response body text, the body
being replaced by a placeholder when unreadable. -/
theorem send_chat_completion_error_contains_status_and_body
    (provider : PostProcessProvider) (api_key model prompt : String)
    (resp : HttpResponse) (hs : HeaderList)
    (hh : build_headers provider api_key = .ok hs)
    (hst : isSuccessStatus resp.status = false) :
    ∃ msg, send_chat_completion provider api_key model prompt resp = .error msg ∧
      occursIn msg (toString resp.status) = true ∧
      occursIn msg (resp.body.getD "Failed to read error response") = true := by
  refine ⟨"API request failed with status " ++ toString resp.status ++ ": " ++
      resp.body.getD "Failed to read error response", ?_, ?_, ?_⟩
  · simp [send_chat_completion, hh, hst]
  · rw [str_append_assoc ("API request failed with status " ++ toString resp.status)
      ": " (resp.body.getD "Failed to read error response")]
    exact occursIn_sandwich _ _ _
  · exact occursIn_of_suffix _ _

/-- Claim C5: with an empty API key, `transcribe_cloud` fails immediately
with the missing-credential configuration error and performs zero network
calls (nothing is encoded or uploaded: the call list is empty). -/
theorem transcribe_cloud_empty_key_no_network
    (base_url model : String) (audio_samples : List (Option ℚ))
    (resp : HttpResponse) :
    transcribe_cloud "" base_url model audio_samples resp =
      (.error "OpenAI API key is missing. Please add it in the Advanced settings.",
       []) := rfl

/-- Counterexample to claim C4 as stated: the cast truncates toward zero,
so the sample 1/2 converts to 16383, not `round(0.5 * 32767) = 16384`. -/
theorem sample_conversion_is_not_rounding :
    sampleToI16 (some ((1 : ℚ) / 2)) ≠ round (((1 : ℚ) / 2) * 32767) := by
  have ht : truncQ (((1 : ℚ) / 2) * 32767) = 16383 := by
    unfold truncQ
    rw [if_pos (by norm_num)]
    norm_num [Int.floor_eq_iff]
  have h1 : sampleToI16 (some ((1 : ℚ) / 2)) = 16383 := by
    simp only [sampleToI16, ht]
    norm_num
  have h2 : round (((1 : ℚ) / 2) * 32767) = 16384 := by
    rw [round_eq]
    norm_num [Int.floor_eq_iff]
  rw [h1, h2]
  decide

/-- Claim C4 (amended): each float sample `s` is converted once into one
16-bit signed integer, namely the saturating truncation toward zero of
`s * 32767` (Rust `as`-cast semantics) — truncation, not rounding. -/
theorem sample_conversion_truncates :
    (∀ s : ℚ, sampleToI16 (some s) =
      max (-32768) (min 32767 (truncQ (s * 32767)))) ∧
    (∀ samples : List (Option ℚ),
      (samples.map sampleToI16).length = samples.length) := by
  constructor
  · intro s
    simp only [sampleToI16]
    split_ifs with h1 h2 <;> omega
  · intro samples
    simp

theorem sampleToI16_mem_range (x : Option ℚ) :
    -32768 ≤ sampleToI16 x ∧ sampleToI16 x ≤ 32767 := by
  cases x with
  | none => simp [sampleToI16]
  | some s =>
    simp only [sampleToI16]
    split_ifs with h1 h2 <;> omega

/-- Claim C10: the float-to-`i16` conversion saturates rather than wraps —
a product above 32767 gives 32767, one below -32768 gives -32768, NaN
gives 0 — and the result always lies in the `i16` range (the conversion is
total: it cannot panic). -/
theorem sample_cast_saturates :
    (∀ s : ℚ, 32767 < s * 32767 → sampleToI16 (some s) = 32767) ∧
    (∀ s : ℚ, s * 32767 < -32768 → sampleToI16 (some s) = -32768) ∧
    sampleToI16 none = 0 ∧
    (∀ x : Option ℚ, -32768 ≤ sampleToI16 x ∧ sampleToI16 x ≤ 32767) := by
  refine ⟨?_, ?_, rfl, sampleToI16_mem_range⟩
  · intro s hgt
    have hx : (0 : ℚ) ≤ s * 32767 := by linarith
    have hfl : (32767 : Int) ≤ truncQ (s * 32767) := by
      unfold truncQ
      rw [if_pos hx]
      exact Int.le_floor.mpr (by exact_mod_cast hgt.le)
    simp only [sampleToI16]
    split_ifs with h1 h2
    · omega
    · rfl
    · omega
  · intro s hlt
    have hx : ¬ (0 : ℚ) ≤ s * 32767 := by linarith
    have hce : truncQ (s * 32767) ≤ -32768 := by
      unfold truncQ
      rw [if_neg hx]
      exact Int.ceil_le.mpr (by exact_mod_cast hlt.le)
    simp only [sampleToI16]
    split_ifs with h1 h2
    · rfl
    · omega
    · omega

/-- Witness for C10: saturation and NaN at concrete samples. -/
theorem sample_cast_saturates_witness :
    sampleToI16 (some 2) = 32767 ∧ sampleToI16 (some (-2)) = -32768 := by
  obtain ⟨h1, h2, -, -⟩ := sample_cast_saturates
  exact ⟨h1 2 (by norm_num), h2 (-2) (by norm_num)⟩

/-- Counterexample to claim C7 as stated: a non-success (401) transcription
response whose body parses as `\x7b error: \x7b message \x7d \x7d` makes
`transcribe_cloud` fail with "OpenAI API Error: bad key" — a message that
does not contain the remote status code. -/
theorem transcribe_error_message_can_lack_status :
    (transcribe_cloud "k" "https://api.example.com" "whisper-1" []
        ⟨401, some "\x7b\"error\":\x7b\"message\":\"bad key\"\x7d\x7d",
         some (.obj [("error", .obj [("message", .str "bad key")])])⟩).1 =
      .error "OpenAI API Error: bad key" ∧
    occursIn "OpenAI API Error: bad key" "401" = false := by
  exact ⟨rfl, by decide⟩

/-- Claim C7 (amended): on a non-success status, the error surfaced by
`send_chat_completion` and by `fetch_models` always contains both the
remote status code and the body text (or its placeholder); `transcribe_cloud`
does so too when the body does not parse as `error.message`, but when it
does, only the remote-supplied message (not the status) is surfaced. -/
theorem error_messages_surface_remote_information :
    (∀ (provider : PostProcessProvider) (api_key model prompt : String)
        (resp : HttpResponse) (hs : HeaderList),
      build_headers provider api_key = .ok hs →
      isSuccessStatus resp.status = false →
      ∃ msg, send_chat_completion provider api_key model prompt resp = .error msg ∧
        occursIn msg (toString resp.status) = true ∧
        occursIn msg (resp.body.getD "Failed to read error response") = true) ∧
    (∀ (provider : PostProcessProvider) (api_key : String)
        (resp : HttpResponse) (hs : HeaderList),
      build_headers provider api_key = .ok hs →
      isSuccessStatus resp.status = false →
      ∃ msg, fetch_models provider api_key resp = .error msg ∧
        occursIn msg (toString resp.status) = true ∧
        occursIn msg (resp.body.getD "Unknown error") = true) ∧
    (∀ (api_key base_url model : String) (audio_samples : List (Option ℚ))
        (resp : HttpResponse),
      api_key ≠ "" →
      isSuccessStatus resp.status = false →
      transcribeErrMessage resp = none →
      ∃ msg, (transcribe_cloud api_key base_url model audio_samples resp).1 =
          .error msg ∧
        occursIn msg (toString resp.status) = true ∧
        occursIn msg (resp.body.getD "Failed to read error response") = true) ∧
    (∀ (api_key base_url model : String) (audio_samples : List (Option ℚ))
        (resp : HttpResponse) (message : String),
      api_key ≠ "" →
      isSuccessStatus resp.status = false →
      transcribeErrMessage resp = some message →
      (transcribe_cloud api_key base_url model audio_samples resp).1 =
        .error ("OpenAI API Error: " ++ message) ∧
      occursIn ("OpenAI API Error: " ++ message) message = true) := by
  refine ⟨?_, ?_, ?_, ?_⟩
  · intro provider api_key model prompt resp hs hh hst
    refine ⟨"API request failed with status " ++ toString resp.status ++ ": " ++
        resp.body.getD "Failed to read error response", ?_, ?_, ?_⟩
    · simp [send_chat_completion, hh, hst]
    · rw [str_append_assoc ("API request failed with status " ++ toString resp.status)
        ": " (resp.body.getD "Failed to read error response")]
      exact occursIn_sandwich _ _ _
    · exact occursIn_of_suffix _ _
  · intro provider api_key resp hs hh hst
    refine ⟨"Model list request failed (" ++ toString resp.status ++ "): " ++
        resp.body.getD "Unknown error", ?_, ?_, ?_⟩
    · simp [fetch_models, hh, hst]
    · rw [str_append_assoc ("Model list request failed (" ++ toString resp.status)
        "): " (resp.body.getD "Unknown error")]
      exact occursIn_sandwich _ _ _
    · exact occursIn_of_suffix _ _
  · intro api_key base_url model audio_samples resp hk hst hnone
    refine ⟨"Cloud transcription failed (" ++ toString resp.status ++ "): " ++
        resp.body.getD "Failed to read error response", ?_, ?_, ?_⟩
    · simp [transcribe_cloud, hk, hst, hnone]
    · rw [str_append_assoc ("Cloud transcription failed (" ++ toString resp.status)
        "): " (resp.body.getD "Failed to read error response")]
      exact occursIn_sandwich _ _ _
    · exact occursIn_of_suffix _ _
  · intro api_key base_url model audio_samples resp message hk hst hsome
    constructor
    · simp [transcribe_cloud, hk, hst, hsome]
    · exact occursIn_of_suffix _ _

/-- Witness for (amended) C7: the model-listing conjunct at a concrete 500
response, hypotheses discharged by evaluation. -/
theorem error_messages_surface_remote_information_witness :
    ∃ msg, fetch_models ⟨"openai", "https://api.example.com"⟩ "k"
        ⟨500, some "overloaded", none⟩ = .error msg ∧
      occursIn msg (toString (500 : Nat)) = true ∧
      occursIn msg "overloaded" = true := by
  have h := error_messages_surface_remote_information.2.1
      ⟨"openai", "https://api.example.com"⟩ "k" ⟨500, some "overloaded", none⟩
      [("content-type", "application/json"),
       ("referer", "https://github.com/cjpais/Handy"),
       ("user-agent", "Handy/1.0 (+https://github.com/cjpais/Handy)"),
       ("x-title", "Handy"), ("authorization", "Bearer k")]
      (by simp [build_headers, headerValueFromStr]; rfl) rfl
  simpa using h

/-- Witness for C6: the spec's example — HTTP 401 with an error body. -/
theorem send_chat_completion_error_witness :
    ∃ msg, send_chat_completion ⟨"openai", "https://api.example.com"⟩ "k" "gpt" "p"
        ⟨401, some "\x7b\"error\":\"bad key\"\x7d", none⟩ = .error msg ∧
      occursIn msg (toString (401 : Nat)) = true ∧
      occursIn msg "\x7b\"error\":\"bad key\"\x7d" = true := by
  have h := send_chat_completion_error_contains_status_and_body
      ⟨"openai", "https://api.example.com"⟩ "k" "gpt" "p"
      ⟨401, some "\x7b\"error\":\"bad key\"\x7d", none⟩
      [("content-type", "application/json"),
       ("referer", "https://github.com/cjpais/Handy"),
       ("user-agent", "Handy/1.0 (+https://github.com/cjpais/Handy)"),
       ("x-title", "Handy"), ("authorization", "Bearer k")]
      (by simp [build_headers, headerValueFromStr]; rfl) rfl
  simpa using h

theorem dropBytes_append (xs rest : List Nat) :
    dropBytes xs (xs ++ rest) = some rest := by
  induction xs with
  | nil => rfl
  | cons a t ih => simp [dropBytes, ih]

theorem parseU16_u16le (n : Nat) (rest : List Nat) :
    parseU16 (u16le n ++ rest) = some (n % 65536, rest) := by
  simp only [u16le, List.cons_append, List.nil_append, parseU16,
    Option.some.injEq, Prod.mk.injEq]
  exact ⟨by omega, trivial⟩

theorem parseU32_u32le (n : Nat) (rest : List Nat) :
    parseU32 (u32le n ++ rest) = some (n % 4294967296, rest) := by
  simp only [u32le, List.cons_append, List.nil_append, parseU32,
    Option.some.injEq, Prod.mk.injEq]
  exact ⟨by omega, trivial⟩

theorem i16OfBits_i16le (z : Int) (hlo : -32768 ≤ z) (hhi : z ≤ 32767) :
    i16OfBits ((z % 65536).toNat % 65536) = z := by
  simp only [i16OfBits]
  split_ifs with h <;> omega

theorem parseSamples_flatten (samples : List Int)
    (hr : ∀ z ∈ samples, -32768 ≤ z ∧ z ≤ 32767) :
    parseSamples samples.length ((samples.map i16le).flatten) = some samples := by
  induction samples with
  | nil => rfl
  | cons z t ih =>
    have hz := hr z (by simp)
    have ht : ∀ w ∈ t, -32768 ≤ w ∧ w ≤ 32767 := fun w hw => hr w (by simp [hw])
    simp only [List.map_cons, List.flatten_cons, List.length_cons, i16le]
    simp only [parseSamples, parseU16_u16le, Option.bind_eq_bind, Option.some_bind,
      ih ht, i16OfBits_i16le z hz.1 hz.2]
    rfl

theorem expectTag_append {A : Type} (tag : String) (k : List Nat → Option A)
    (rest : List Nat) :
    expectTag tag k (asciiBytes tag ++ rest) = k rest := by
  unfold expectTag
  rw [dropBytes_append]

theorem withU32_u32le {A : Type} (k : Nat → List Nat → Option A) (n : Nat)
    (rest : List Nat) :
    withU32 k (u32le n ++ rest) = k (n % 4294967296) rest := by
  unfold withU32
  rw [parseU32_u32le]

theorem withU16_u16le {A : Type} (k : Nat → List Nat → Option A) (n : Nat)
    (rest : List Nat) :
    withU16 k (u16le n ++ rest) = k (n % 65536) rest := by
  unfold withU16
  rw [parseU16_u16le]

theorem wavDecode_wavEncode (samples : List Int)
    (hr : ∀ z ∈ samples, -32768 ≤ z ∧ z ≤ 32767)
    (hlen : 36 + 2 * samples.length < 4294967296) :
    wavDecode (wavEncode samples) = some (⟨1, 16000, 16⟩, samples) := by
  have h1 : (36 + 2 * samples.length) % 4294967296 = 36 + 2 * samples.length :=
    Nat.mod_eq_of_lt hlen
  have h2 : (2 * samples.length) % 4294967296 = 2 * samples.length :=
    Nat.mod_eq_of_lt (by omega)
  have h3 : 2 * samples.length / 2 = samples.length := by omega
  unfold wavDecode wavEncode wavHeader
  simp only [List.append_assoc]
  simp only [expectTag_append, withU32_u32le, withU16_u16le, h1, h2]
  norm_num
  rw [parseSamples_flatten samples hr]

/-- Claim C9: the in-memory WAV buffer `transcribe_cloud` builds and
uploads is a complete mono, 16 kHz, 16-bit-PCM container: decoding the
produced bytes recovers that format and the same sample count as the input
(round-trip); the buffer the operation posts is exactly this encoding.
The hypothesis keeps the data size within the container's 32-bit size
fields. -/
theorem transcribe_wav_buffer_roundtrip (floats : List (Option ℚ))
    (hlen : 36 + 2 * floats.length < 4294967296) :
    wavDecode (wavEncode (floats.map sampleToI16)) =
      some (⟨1, 16000, 16⟩, floats.map sampleToI16) ∧
    (floats.map sampleToI16).length = floats.length ∧
    (∀ (api_key base_url model : String) (resp : HttpResponse), api_key ≠ "" →
      (transcribe_cloud api_key base_url model floats resp).2 =
        [⟨transcriptionsUrl base_url, wavEncode (floats.map sampleToI16), model⟩]) := by
  refine ⟨?_, by simp, ?_⟩
  · refine wavDecode_wavEncode _ ?_ (by simpa using hlen)
    intro z hz
    obtain ⟨x, -, rfl⟩ := List.mem_map.mp hz
    exact sampleToI16_mem_range x
  · intro api_key base_url model resp hk
    simp [transcribe_cloud, hk]

/-- Witness for C9: a concrete three-sample input, evaluated. -/
theorem transcribe_wav_buffer_roundtrip_witness :
    wavDecode (wavEncode ([some 0, some ((1 : ℚ) / 2), some (-1)].map sampleToI16)) =
      some (⟨1, 16000, 16⟩, [some 0, some ((1 : ℚ) / 2), some (-1)].map sampleToI16) :=
  (transcribe_wav_buffer_roundtrip [some 0, some ((1 : ℚ) / 2), some (-1)]
    (by norm_num)).1
